import Mathlib

/-!
Verification of the LiveStreams resource class of the mux-node-sdk
repository (src/video/resources/liveStreams.ts), a thin client wrapper
over the Mux Video REST API.

Shallow embedding: each method of the `LiveStreams` class is a pure Lean
function from its JavaScript arguments to an `Except`-valued outcome:
`Except.error msg` models a rejected promise (or a throw inside an
`async` method, which likewise surfaces as a rejected promise) and
`Except.ok req` models the single HTTP request the method hands to the
shared transport `this.http`.  A JavaScript string argument that may be
`undefined`/`null` is modelled as `Option String`; JavaScript truthiness
of such a value (`!x` fails exactly when the value is present and
non-empty) is `strTruthy`.  A parameters object is `Option β` for an
abstract payload type `β` (objects are always truthy when present).
-/

namespace MuxSDK

/-- The five HTTP verbs exposed by the shared transport (`this.http.get`,
`.post`, `.patch`, `.put`, `.delete`). -/
inductive Verb : Type where
  | GET
  | POST
  | PATCH
  | PUT
  | DELETE
deriving DecidableEq, Repr

/-- The shape of `SimulcastTargetParams` as used by the code under
verification: `createSimulcastTarget` reads the `url` field; all other
fields (stream key, passthrough) are opaque to this file and collected
in `rest`. -/
structure SimulcastTargetParams (β : Type) where
  url : Option String
  rest : β
deriving DecidableEq, Repr

/-- The second argument a method passes to the transport:
nothing (the verb is called with the path only), a JSON body forwarded
verbatim, the `\x7b params \x7d` config object `list` wraps its argument
in, or a simulcast-target body. -/
inductive HttpPayload (β : Type) : Type where
  | noPayload
  | jsonBody (p : Option β)
  | queryConfig (p : Option β)
  | simulcastBody (p : Option (SimulcastTargetParams β))
deriving DecidableEq, Repr

/-- One HTTP request as handed to the shared transport: verb, path
string, and second argument. -/
structure Request (β : Type) where
  verb : Verb
  path : String
  payload : HttpPayload β
deriving DecidableEq, Repr

/-- JavaScript truthiness of a possibly-missing string: `!x` is false
exactly when the string is present and non-empty. -/
def strTruthy : Option String → Bool
  | none => false
  | some s => !s.isEmpty

/-- Source constant `PATH = '/video/v1/live-streams'` (liveStreams.ts line 21). -/
def PATH : String := "/video/v1/live-streams"

/-- Source constant `buildBasePath = (liveStreamId) => PATH/liveStreamId`
(liveStreams.ts line 27). -/
def buildBasePath (liveStreamId : String) : String :=
  PATH ++ "/" ++ liveStreamId

namespace LiveStreams

variable {β : Type}

/-- Method `create(params)`: `return this.http.post(PATH, params)`.  No local
validation. -/
def create (params : Option β) : Except String (Request β) :=
  .ok ⟨.POST, PATH, .jsonBody params⟩

/-- Method `update(liveStreamId, params)`: throws when `!liveStreamId || !params`,
else `this.http.patch(buildBasePath(liveStreamId), params)`. -/
def update (liveStreamId : Option String) (params : Option β) :
    Except String (Request β) :=
  if !strTruthy liveStreamId || !params.isSome then
    .error "assetId and params are required."
  else
    .ok ⟨.PATCH, buildBasePath (liveStreamId.getD ""), .jsonBody params⟩

/-- Method `del(liveStreamId)`: rejects when `!liveStreamId`, else
`this.http.delete(buildBasePath(liveStreamId))`. -/
def del (liveStreamId : Option String) : Except String (Request β) :=
  if !strTruthy liveStreamId then
    .error "A live stream ID is required to delete a live stream"
  else
    .ok ⟨.DELETE, buildBasePath (liveStreamId.getD ""), .noPayload⟩

/-- Method `get(liveStreamId)`: rejects when `!liveStreamId`, else
`this.http.get(buildBasePath(liveStreamId))`. -/
def get (liveStreamId : Option String) : Except String (Request β) :=
  if !strTruthy liveStreamId then
    .error "A live stream ID is required to get a live stream"
  else
    .ok ⟨.GET, buildBasePath (liveStreamId.getD ""), .noPayload⟩

/-- Method `list(params)`: `return this.http.get(PATH, \x7b params \x7d)`.  No
local validation. -/
def list (params : Option β) : Except String (Request β) :=
  .ok ⟨.GET, PATH, .queryConfig params⟩

/-- Method `signalComplete(liveStreamId)`: rejects when `!liveStreamId`, else
`this.http.put(buildBasePath(liveStreamId)/complete)`. -/
def signalComplete (liveStreamId : Option String) :
    Except String (Request β) :=
  if !strTruthy liveStreamId then
    .error "A live stream ID is required to signal a stream is complete"
  else
    .ok ⟨.PUT, buildBasePath (liveStreamId.getD "") ++ "/complete",
      .noPayload⟩

/-- Method `resetStreamKey(liveStreamId)`: rejects when `!liveStreamId`, else
`this.http.post(buildBasePath(liveStreamId)/reset-stream-key)`. -/
def resetStreamKey (liveStreamId : Option String) :
    Except String (Request β) :=
  if !strTruthy liveStreamId then
    .error "A live stream ID is required to reset a live stream key"
  else
    .ok ⟨.POST,
      buildBasePath (liveStreamId.getD "") ++ "/reset-stream-key",
      .noPayload⟩

/-- Method `createPlaybackId(liveStreamId, params)`: rejects on `!liveStreamId`,
then on `!params`, else posts to `.../playback-ids` with `params`. -/
def createPlaybackId (liveStreamId : Option String) (params : Option β) :
    Except String (Request β) :=
  if !strTruthy liveStreamId then
    .error "A live stream ID is required to create a live stream playback ID"
  else if !params.isSome then
    .error "A playback policy is required to create a live stream playback ID"
  else
    .ok ⟨.POST, buildBasePath (liveStreamId.getD "") ++ "/playback-ids",
      .jsonBody params⟩

/-- Method `deletePlaybackId(liveStreamId, playbackId)`: rejects on
`!liveStreamId`, then on `!playbackId`, else deletes
`.../playback-ids/playbackId`. -/
def deletePlaybackId (liveStreamId playbackId : Option String) :
    Except String (Request β) :=
  if !strTruthy liveStreamId then
    .error "A live stream ID is required to delete a live stream playback ID"
  else if !strTruthy playbackId then
    .error "A live stream playback ID is required to delete a live stream playback ID"
  else
    .ok ⟨.DELETE,
      buildBasePath (liveStreamId.getD "") ++ "/playback-ids/" ++
        playbackId.getD "",
      .noPayload⟩

/-- Method `playbackId(liveStreamId, playbackId)`: rejects on `!liveStreamId`,
then on `!playbackId`, else gets `.../playback-ids/playbackId`. -/
def playbackId (liveStreamId playbackIdArg : Option String) :
    Except String (Request β) :=
  if !strTruthy liveStreamId then
    .error "A live stream ID is required"
  else if !strTruthy playbackIdArg then
    .error "A playback ID is required"
  else
    .ok ⟨.GET,
      buildBasePath (liveStreamId.getD "") ++ "/playback-ids/" ++
        playbackIdArg.getD "",
      .noPayload⟩

/-- JavaScript truthiness of `params && params.url` for
`createSimulcastTarget`: the params object must be present and its
`url` field present and non-empty. -/
def simulcastParamsOk : Option (SimulcastTargetParams β) → Bool
  | none => false
  | some p => strTruthy p.url

/-- Method `createSimulcastTarget(liveStreamId, params)`: rejects on
`!liveStreamId`, then on `!(params && params.url)`, else posts to
`.../simulcast-targets` with `params`. -/
def createSimulcastTarget (liveStreamId : Option String)
    (params : Option (SimulcastTargetParams β)) :
    Except String (Request β) :=
  if !strTruthy liveStreamId then
    .error "A live stream ID is required to create a simulcast target"
  else if !simulcastParamsOk params then
    .error "A url is required to create a simulcast target"
  else
    .ok ⟨.POST,
      buildBasePath (liveStreamId.getD "") ++ "/simulcast-targets",
      .simulcastBody params⟩

/-- Method `getSimulcastTarget(liveStreamId, simulcastTargetId)`: rejects on
`!liveStreamId`, then on `!simulcastTargetId`, else gets
`.../simulcast-targets/simulcastTargetId`. -/
def getSimulcastTarget (liveStreamId simulcastTargetId : Option String) :
    Except String (Request β) :=
  if !strTruthy liveStreamId then
    .error "A live stream ID is required to get a simulcast target"
  else if !strTruthy simulcastTargetId then
    .error "A simulcast target ID is required to get a simulcast target"
  else
    .ok ⟨.GET,
      buildBasePath (liveStreamId.getD "") ++ "/simulcast-targets/" ++
        simulcastTargetId.getD "",
      .noPayload⟩

/-- Method `deleteSimulcastTarget(liveStreamId, simulcastTargetId)`: rejects on
`!liveStreamId`, then on `!simulcastTargetId`, else deletes
`.../simulcast-targets/simulcastTargetId`. -/
def deleteSimulcastTarget (liveStreamId simulcastTargetId : Option String) :
    Except String (Request β) :=
  if !strTruthy liveStreamId then
    .error "A live stream ID is required to delete a simulcast target"
  else if !strTruthy simulcastTargetId then
    .error "A simulcast target ID is required to delete a simulcast target"
  else
    .ok ⟨.DELETE,
      buildBasePath (liveStreamId.getD "") ++ "/simulcast-targets/" ++
        simulcastTargetId.getD "",
      .noPayload⟩

/-- Method `updateEmbeddedSubtitles(liveStreamId, params)`: throws when
`!liveStreamId || !params`, else puts `.../embedded-subtitles` with
`params`. -/
def updateEmbeddedSubtitles (liveStreamId : Option String)
    (params : Option β) : Except String (Request β) :=
  if !strTruthy liveStreamId || !params.isSome then
    .error "liveStreamId and params are required."
  else
    .ok ⟨.PUT,
      buildBasePath (liveStreamId.getD "") ++ "/embedded-subtitles",
      .jsonBody params⟩

/-- Method `disable(liveStreamId)`: rejects when `!liveStreamId`, else
`this.http.put(buildBasePath(liveStreamId)/disable)`. -/
def disable (liveStreamId : Option String) : Except String (Request β) :=
  if !strTruthy liveStreamId then
    .error "A live stream ID is required to disable a live stream"
  else
    .ok ⟨.PUT, buildBasePath (liveStreamId.getD "") ++ "/disable",
      .noPayload⟩

/-- Method `enable(liveStreamId)`: rejects when `!liveStreamId`, else
`this.http.put(buildBasePath(liveStreamId)/enable)`. -/
def enable (liveStreamId : Option String) : Except String (Request β) :=
  if !strTruthy liveStreamId then
    .error "A live stream ID is required to enable a live stream"
  else
    .ok ⟨.PUT, buildBasePath (liveStreamId.getD "") ++ "/enable",
      .noPayload⟩

/-- A call to one of the sixteen public methods of the `LiveStreams`
class, together with its JavaScript arguments. -/
inductive OpCall (β : Type) : Type where
  | create (params : Option β)
  | update (liveStreamId : Option String) (params : Option β)
  | del (liveStreamId : Option String)
  | get (liveStreamId : Option String)
  | list (params : Option β)
  | signalComplete (liveStreamId : Option String)
  | resetStreamKey (liveStreamId : Option String)
  | createPlaybackId (liveStreamId : Option String) (params : Option β)
  | deletePlaybackId (liveStreamId playbackId : Option String)
  | playbackId (liveStreamId playbackIdArg : Option String)
  | createSimulcastTarget (liveStreamId : Option String)
      (params : Option (SimulcastTargetParams β))
  | getSimulcastTarget (liveStreamId simulcastTargetId : Option String)
  | deleteSimulcastTarget (liveStreamId simulcastTargetId : Option String)
  | updateEmbeddedSubtitles (liveStreamId : Option String)
      (params : Option β)
  | disable (liveStreamId : Option String)
  | enable (liveStreamId : Option String)
deriving DecidableEq, Repr

/-- Dispatch a method call to its embedding. -/
def interp : OpCall β → Except String (Request β)
  | .create p => create p
  | .update lid p => update lid p
  | .del lid => del lid
  | .get lid => get lid
  | .list p => list p
  | .signalComplete lid => signalComplete lid
  | .resetStreamKey lid => resetStreamKey lid
  | .createPlaybackId lid p => createPlaybackId lid p
  | .deletePlaybackId lid pid => deletePlaybackId lid pid
  | .playbackId lid pid => playbackId lid pid
  | .createSimulcastTarget lid p => createSimulcastTarget lid p
  | .getSimulcastTarget lid sid => getSimulcastTarget lid sid
  | .deleteSimulcastTarget lid sid => deleteSimulcastTarget lid sid
  | .updateEmbeddedSubtitles lid p => updateEmbeddedSubtitles lid p
  | .disable lid => disable lid
  | .enable lid => enable lid

/-- How many HTTP requests a call hands to the shared transport: one when
the method reaches a `this.http` call, zero when it rejects locally. -/
def requestCount (op : OpCall β) : Nat :=
  match interp op with
  | .ok _ => 1
  | .error _ => 0

/-- The client-side state a `LiveStreams` instance owns: the reference to
the shared HTTP transport inherited from `Base`.  The transport itself is
an external collaborator, abstracted as a function from requests to
results of an arbitrary type `τ`. -/
structure Client (β τ : Type) where
  http : Request β → τ

/-- Run one method call against a client: the method either rejects
locally or applies the transport exactly once to the request it built;
the client state after the call is returned alongside the outcome.  No
method body of `LiveStreams` assigns to `this`, so the state is passed
through unchanged. -/
def callOp {τ : Type} (c : Client β τ) (op : OpCall β) :
    Client β τ × Except String τ :=
  (c, (interp op).map c.http)

/-- Spec-side table, written from the spec's words and not from the
source: for each operation, which arguments count as the required ones
being "valid (present, non-empty)".  Identifiers must be present and
non-empty; a required parameters object must be present; for
`createSimulcastTarget` the spec's documented requirement is a params
object carrying a url. -/
def specArgsValid : OpCall β → Bool
  | .create _ => true
  | .update lid p => strTruthy lid && p.isSome
  | .del lid => strTruthy lid
  | .get lid => strTruthy lid
  | .list _ => true
  | .signalComplete lid => strTruthy lid
  | .resetStreamKey lid => strTruthy lid
  | .createPlaybackId lid p => strTruthy lid && p.isSome
  | .deletePlaybackId lid pid => strTruthy lid && strTruthy pid
  | .playbackId lid pid => strTruthy lid && strTruthy pid
  | .createSimulcastTarget lid p => strTruthy lid && simulcastParamsOk p
  | .getSimulcastTarget lid sid => strTruthy lid && strTruthy sid
  | .deleteSimulcastTarget lid sid => strTruthy lid && strTruthy sid
  | .updateEmbeddedSubtitles lid p => strTruthy lid && p.isSome
  | .disable lid => strTruthy lid
  | .enable lid => strTruthy lid

/-- Spec-side table, written from the spec's words and not from the
source: the verb, the path (fixed prefix interpolated with the given
identifiers, written here as literal strings), and the forwarded
argument expected for each operation. -/
def specExpectedRequest : OpCall β → Request β
  | .create p => ⟨.POST, "/video/v1/live-streams", .jsonBody p⟩
  | .update lid p =>
      ⟨.PATCH, "/video/v1/live-streams/" ++ lid.getD "", .jsonBody p⟩
  | .del lid =>
      ⟨.DELETE, "/video/v1/live-streams/" ++ lid.getD "", .noPayload⟩
  | .get lid =>
      ⟨.GET, "/video/v1/live-streams/" ++ lid.getD "", .noPayload⟩
  | .list p => ⟨.GET, "/video/v1/live-streams", .queryConfig p⟩
  | .signalComplete lid =>
      ⟨.PUT, "/video/v1/live-streams/" ++ lid.getD "" ++ "/complete",
        .noPayload⟩
  | .resetStreamKey lid =>
      ⟨.POST,
        "/video/v1/live-streams/" ++ lid.getD "" ++ "/reset-stream-key",
        .noPayload⟩
  | .createPlaybackId lid p =>
      ⟨.POST,
        "/video/v1/live-streams/" ++ lid.getD "" ++ "/playback-ids",
        .jsonBody p⟩
  | .deletePlaybackId lid pid =>
      ⟨.DELETE,
        "/video/v1/live-streams/" ++ lid.getD "" ++ "/playback-ids/" ++
          pid.getD "",
        .noPayload⟩
  | .playbackId lid pid =>
      ⟨.GET,
        "/video/v1/live-streams/" ++ lid.getD "" ++ "/playback-ids/" ++
          pid.getD "",
        .noPayload⟩
  | .createSimulcastTarget lid p =>
      ⟨.POST,
        "/video/v1/live-streams/" ++ lid.getD "" ++ "/simulcast-targets",
        .simulcastBody p⟩
  | .getSimulcastTarget lid sid =>
      ⟨.GET,
        "/video/v1/live-streams/" ++ lid.getD "" ++
          "/simulcast-targets/" ++ sid.getD "",
        .noPayload⟩
  | .deleteSimulcastTarget lid sid =>
      ⟨.DELETE,
        "/video/v1/live-streams/" ++ lid.getD "" ++
          "/simulcast-targets/" ++ sid.getD "",
        .noPayload⟩
  | .updateEmbeddedSubtitles lid p =>
      ⟨.PUT,
        "/video/v1/live-streams/" ++ lid.getD "" ++ "/embedded-subtitles",
        .jsonBody p⟩
  | .disable lid =>
      ⟨.PUT, "/video/v1/live-streams/" ++ lid.getD "" ++ "/disable",
        .noPayload⟩
  | .enable lid =>
      ⟨.PUT, "/video/v1/live-streams/" ++ lid.getD "" ++ "/enable",
        .noPayload⟩

/-- Spec-side table: the live stream identifier argument of an operation,
when the operation requires one (`none` for `create` and `list`, which
take no identifier). -/
def specIdArg : OpCall β → Option (Option String)
  | .create _ => none
  | .update lid _ => some lid
  | .del lid => some lid
  | .get lid => some lid
  | .list _ => none
  | .signalComplete lid => some lid
  | .resetStreamKey lid => some lid
  | .createPlaybackId lid _ => some lid
  | .deletePlaybackId lid _ => some lid
  | .playbackId lid _ => some lid
  | .createSimulcastTarget lid _ => some lid
  | .getSimulcastTarget lid _ => some lid
  | .deleteSimulcastTarget lid _ => some lid
  | .updateEmbeddedSubtitles lid _ => some lid
  | .disable lid => some lid
  | .enable lid => some lid

/-- Spec-side table: the documented fixed message each identifier-taking
operation rejects with when its live stream identifier is missing or
empty (the string is irrelevant for `create` and `list`, which require
no identifier). -/
def specRejectMsg : OpCall β → String
  | .create _ => ""
  | .update _ _ => "assetId and params are required."
  | .del _ => "A live stream ID is required to delete a live stream"
  | .get _ => "A live stream ID is required to get a live stream"
  | .list _ => ""
  | .signalComplete _ =>
      "A live stream ID is required to signal a stream is complete"
  | .resetStreamKey _ =>
      "A live stream ID is required to reset a live stream key"
  | .createPlaybackId _ _ =>
      "A live stream ID is required to create a live stream playback ID"
  | .deletePlaybackId _ _ =>
      "A live stream ID is required to delete a live stream playback ID"
  | .playbackId _ _ => "A live stream ID is required"
  | .createSimulcastTarget _ _ =>
      "A live stream ID is required to create a simulcast target"
  | .getSimulcastTarget _ _ =>
      "A live stream ID is required to get a simulcast target"
  | .deleteSimulcastTarget _ _ =>
      "A live stream ID is required to delete a simulcast target"
  | .updateEmbeddedSubtitles _ _ =>
      "liveStreamId and params are required."
  | .disable _ => "A live stream ID is required to disable a live stream"
  | .enable _ => "A live stream ID is required to enable a live stream"

/-- Spec-side table: the argument payload each operation forwards to the
transport when it issues its request, exactly as passed in. -/
def specOpPayload : OpCall β → HttpPayload β
  | .create p => .jsonBody p
  | .update _ p => .jsonBody p
  | .del _ => .noPayload
  | .get _ => .noPayload
  | .list p => .queryConfig p
  | .signalComplete _ => .noPayload
  | .resetStreamKey _ => .noPayload
  | .createPlaybackId _ p => .jsonBody p
  | .deletePlaybackId _ _ => .noPayload
  | .playbackId _ _ => .noPayload
  | .createSimulcastTarget _ p => .simulcastBody p
  | .getSimulcastTarget _ _ => .noPayload
  | .deleteSimulcastTarget _ _ => .noPayload
  | .updateEmbeddedSubtitles _ p => .jsonBody p
  | .disable _ => .noPayload
  | .enable _ => .noPayload

theorem PATH_eq : PATH = "/video/v1/live-streams" := rfl

theorem buildBasePath_eq (s : String) :
    buildBasePath s = "/video/v1/live-streams/" ++ s := rfl

theorem string_append_assoc (a b c : String) :
    a ++ b ++ c = a ++ (b ++ c) := by
  apply String.ext
  simp [String.data_append]

theorem path_prefix_step (s : String) :
    "/video/v1/live-streams/" ++ s =
      "/video/v1/live-streams" ++ "/" ++ s := rfl

/-- Every path of the shape built by `buildBasePath` extends the fixed
prefix `/video/v1/live-streams`. -/
theorem path_prefix_ex (s : String) :
    ∃ rest, "/video/v1/live-streams/" ++ s =
      "/video/v1/live-streams" ++ rest :=
  ⟨"/" ++ s, (path_prefix_step s).trans (string_append_assoc _ _ _)⟩

/-- The bare collection path is the fixed prefix itself. -/
theorem path_prefix_ex_self :
    ∃ rest, "/video/v1/live-streams" =
      "/video/v1/live-streams" ++ rest :=
  ⟨"", by simp⟩

/-- When an operation's required arguments are all valid, the operation
builds exactly the request the spec expects. -/
theorem interp_valid {β : Type} (op : OpCall β)
    (h : specArgsValid op = true) :
    interp op = .ok (specExpectedRequest op) := by
  cases op <;>
    simp_all [specArgsValid, specExpectedRequest, interp, create, update,
      del, get, list, signalComplete, resetStreamKey, createPlaybackId,
      deletePlaybackId, playbackId, createSimulcastTarget,
      getSimulcastTarget, deleteSimulcastTarget, updateEmbeddedSubtitles,
      disable, enable, buildBasePath_eq, PATH_eq]

/-- Whenever an operation hands a request to the transport, that request
is the one the spec expects for the operation's arguments. -/
theorem interp_ok_eq {β : Type} (op : OpCall β) (r : Request β)
    (h : interp op = .ok r) : r = specExpectedRequest op := by
  cases op <;>
    (simp only [interp, create, update, del, get, list, signalComplete,
      resetStreamKey, createPlaybackId, deletePlaybackId, playbackId,
      createSimulcastTarget, getSimulcastTarget, deleteSimulcastTarget,
      updateEmbeddedSubtitles, disable, enable] at h) <;>
    (repeat' split at h) <;>
    simp_all [specExpectedRequest, buildBasePath_eq, PATH_eq]

/-- Claim C1: every LiveStreams operation that requires a live stream
identifier (update, del, get, signalComplete, resetStreamKey,
createPlaybackId, deletePlaybackId, playbackId, createSimulcastTarget,
getSimulcastTarget, deleteSimulcastTarget, updateEmbeddedSubtitles,
disable, enable), when called with an empty or missing identifier,
rejects with the documented message for that operation and hands no
request to the HTTP transport. -/
theorem claim_C1 {β : Type} (op : OpCall β) (lid : Option String)
    (hid : specIdArg op = some lid) (hmiss : strTruthy lid = false) :
    interp op = .error (specRejectMsg op) ∧ requestCount op = 0 := by
  cases op <;>
    simp_all [specIdArg, specRejectMsg, interp, requestCount, create,
      update, del, get, list, signalComplete, resetStreamKey,
      createPlaybackId, deletePlaybackId, playbackId,
      createSimulcastTarget, getSimulcastTarget, deleteSimulcastTarget,
      updateEmbeddedSubtitles, disable, enable]

theorem claim_C1_witness :
    interp (β := Unit) (.enable none) =
      .error (specRejectMsg (.enable (β := Unit) none)) ∧
    requestCount (β := Unit) (.enable none) = 0 :=
  claim_C1 (.enable none) none rfl rfl

/-- Claim C2: every LiveStreams operation called with valid (present,
non-empty) required arguments hands exactly one request to the shared
transport, with the verb and path expected for that operation, and the
transport's result is returned unmodified. -/
theorem claim_C2 {β τ : Type} (op : OpCall β)
    (h : specArgsValid op = true) :
    interp op = .ok (specExpectedRequest op) ∧ requestCount op = 1 ∧
      ∀ c : Client β τ,
        (callOp c op).snd = .ok (c.http (specExpectedRequest op)) := by
  refine ⟨interp_valid op h, ?_, ?_⟩
  · simp [requestCount, interp_valid op h]
  · intro c
    simp [callOp, interp_valid op h, Except.map]

theorem claim_C2_witness :
    interp (β := Unit) (.del (some "ls1")) =
      .ok (specExpectedRequest (.del (β := Unit) (some "ls1"))) ∧
    requestCount (β := Unit) (.del (some "ls1")) = 1 ∧
    ∀ c : Client Unit String,
      (callOp c (.del (some "ls1"))).snd =
        .ok (c.http (specExpectedRequest (.del (some "ls1")))) :=
  claim_C2 (.del (some "ls1")) (by decide)

/-- Claim C4: path construction is deterministic and pure: buildBasePath
returns the fixed prefix with a trailing slash concatenated with the
identifier, equal inputs give equal paths, and every operation builds an
identical outcome on identical calls. -/
theorem claim_C4 :
    (∀ s : String, buildBasePath s = "/video/v1/live-streams/" ++ s) ∧
    (∀ s t : String, s = t → buildBasePath s = buildBasePath t) ∧
    (∀ (β : Type) (op₁ op₂ : OpCall β), op₁ = op₂ →
      interp op₁ = interp op₂) :=
  ⟨buildBasePath_eq, fun _ _ h => by rw [h], fun _ _ _ h => by rw [h]⟩

theorem claim_C4_witness :
    buildBasePath "ls1" = "/video/v1/live-streams/ls1" ∧
    interp (β := Unit) (.get (some "ls1")) =
      interp (β := Unit) (.get (some "ls1")) :=
  ⟨(claim_C4.1 "ls1").trans (by rfl),
    claim_C4.2.2 Unit (.get (some "ls1")) (.get (some "ls1")) rfl⟩

/-- Claim C8: create and list perform no local validation: for every
argument value, including a missing parameters object, create issues
exactly one POST to /video/v1/live-streams and list exactly one GET to
/video/v1/live-streams, and neither ever rejects locally. -/
theorem claim_C8 {β : Type} (p : Option β) :
    interp (.create p) =
      .ok ⟨.POST, "/video/v1/live-streams", .jsonBody p⟩ ∧
    requestCount (.create p) = 1 ∧
    interp (.list p) =
      .ok ⟨.GET, "/video/v1/live-streams", .queryConfig p⟩ ∧
    requestCount (.list p) = 1 :=
  ⟨rfl, rfl, rfl, rfl⟩

/-- Claim C10: update called with a missing live stream identifier or a
missing parameters object rejects with exactly the fixed string
"assetId and params are required.", which names assetId even though the
first parameter is a live stream identifier. -/
theorem claim_C10 {β : Type} (lid : Option String) (p : Option β)
    (h : lid = none ∨ p = none) :
    interp (.update lid p) = .error "assetId and params are required." := by
  rcases h with h | h <;> subst h <;> simp [interp, update, strTruthy]

theorem claim_C10_witness :
    interp (β := Unit) (.update none (some ())) =
      .error "assetId and params are required." :=
  claim_C10 none (some ()) (Or.inl rfl)

/-- Claim C3 counterexample: presence of the live stream identifier and
of the parameters object is not the complete precondition of
createSimulcastTarget: with identifier "stream1" and a present params
object whose url field is missing, the call rejects locally with the url
message and issues no POST, contradicting the claim. -/
theorem claim_C3_counterexample :
    strTruthy (some "stream1") = true ∧
    (some (SimulcastTargetParams.mk (β := Unit) none ())).isSome = true ∧
    interp (.createSimulcastTarget (some "stream1")
        (some (SimulcastTargetParams.mk (β := Unit) none ()))) =
      .error "A url is required to create a simulcast target" ∧
    requestCount (.createSimulcastTarget (some "stream1")
        (some (SimulcastTargetParams.mk (β := Unit) none ()))) = 0 := by
  refine ⟨rfl, rfl, ?_, ?_⟩ <;> rfl

/-- Claim C3 as amended: for createSimulcastTarget the complete
precondition is presence of the live stream identifier together with a
present parameters object carrying a present, non-empty url: whenever
both hold, the call does not reject locally and issues exactly one POST
to /video/v1/live-streams/\x7bliveStreamId\x7d/simulcast-targets. -/
theorem claim_C3_amended {β : Type} (lid : Option String)
    (p : Option (SimulcastTargetParams β))
    (h1 : strTruthy lid = true) (h2 : simulcastParamsOk p = true) :
    interp (.createSimulcastTarget lid p) =
      .ok ⟨.POST,
        "/video/v1/live-streams/" ++ lid.getD "" ++ "/simulcast-targets",
        .simulcastBody p⟩ ∧
    requestCount (.createSimulcastTarget lid p) = 1 := by
  have h := interp_valid (.createSimulcastTarget lid p)
    (by simp [specArgsValid, h1, h2])
  exact ⟨h, by simp [requestCount, h]⟩

theorem claim_C3_amended_witness :
    interp (.createSimulcastTarget (some "stream1")
        (some (SimulcastTargetParams.mk (β := Unit)
          (some "rtmp://live.example.com/app") ()))) =
      .ok ⟨.POST, "/video/v1/live-streams/stream1/simulcast-targets",
        .simulcastBody (some (SimulcastTargetParams.mk
          (some "rtmp://live.example.com/app") ()))⟩ ∧
    requestCount (.createSimulcastTarget (some "stream1")
        (some (SimulcastTargetParams.mk (β := Unit)
          (some "rtmp://live.example.com/app") ()))) = 1 :=
  ((claim_C3_amended (some "stream1")
    (some (SimulcastTargetParams.mk (some "rtmp://live.example.com/app") ()))
    (by decide) (by decide)).imp (fun h => h.trans (by rfl)) id)

/-- Claim C5: every request any LiveStreams operation hands to the
transport has a path beginning with the fixed prefix
/video/v1/live-streams, and its verb is one of GET, POST, PATCH, PUT,
DELETE. -/
theorem claim_C5 {β : Type} (op : OpCall β) (r : Request β)
    (h : interp op = .ok r) :
    (∃ rest : String, r.path = "/video/v1/live-streams" ++ rest) ∧
    (r.verb = .GET ∨ r.verb = .POST ∨ r.verb = .PATCH ∨
      r.verb = .PUT ∨ r.verb = .DELETE) := by
  have hr := interp_ok_eq op r h
  subst hr
  constructor
  · cases op <;>
      simp only [specExpectedRequest, string_append_assoc] <;>
      first
        | exact path_prefix_ex_self
        | exact path_prefix_ex _
  · cases op <;> simp [specExpectedRequest]

theorem claim_C5_witness :
    (∃ rest : String,
      (Request.mk (β := Unit) .DELETE "/video/v1/live-streams/ls1"
        .noPayload).path = "/video/v1/live-streams" ++ rest) ∧
    ((Request.mk (β := Unit) .DELETE "/video/v1/live-streams/ls1"
        .noPayload).verb = .GET ∨
      (Request.mk (β := Unit) .DELETE "/video/v1/live-streams/ls1"
        .noPayload).verb = .POST ∨
      (Request.mk (β := Unit) .DELETE "/video/v1/live-streams/ls1"
        .noPayload).verb = .PATCH ∨
      (Request.mk (β := Unit) .DELETE "/video/v1/live-streams/ls1"
        .noPayload).verb = .PUT ∨
      (Request.mk (β := Unit) .DELETE "/video/v1/live-streams/ls1"
        .noPayload).verb = .DELETE) :=
  claim_C5 (.del (some "ls1")) _ (by rfl)

/-- Claim C6: update and updateEmbeddedSubtitles, called with a missing
live stream identifier or a missing parameters object, reject with a
descriptive message and hand no request to the transport. -/
theorem claim_C6 {β : Type} (lid : Option String) (p : Option β)
    (h : lid = none ∨ p = none) :
    (interp (.update lid p) =
        .error "assetId and params are required." ∧
      requestCount (.update lid p) = 0) ∧
    (interp (.updateEmbeddedSubtitles lid p) =
        .error "liveStreamId and params are required." ∧
      requestCount (.updateEmbeddedSubtitles lid p) = 0) := by
  rcases h with h | h <;> subst h <;>
    simp [interp, update, updateEmbeddedSubtitles, requestCount, strTruthy]

theorem claim_C6_witness :
    (interp (β := Unit) (.update none none) =
        .error "assetId and params are required." ∧
      requestCount (β := Unit) (.update none none) = 0) ∧
    (interp (β := Unit) (.updateEmbeddedSubtitles none none) =
        .error "liveStreamId and params are required." ∧
      requestCount (β := Unit) (.updateEmbeddedSubtitles none none) = 0) :=
  claim_C6 none none (Or.inl rfl)

/-- Claim C7: no LiveStreams operation mutates client-side state: the
client (in particular its transport reference) is unchanged by every
call, and whenever a request is issued its payload is exactly the
argument passed in, unmodified. -/
theorem claim_C7 {β τ : Type} (c : Client β τ) (op : OpCall β) :
    (callOp c op).fst = c ∧
    ∀ r : Request β, interp op = .ok r → r.payload = specOpPayload op := by
  refine ⟨rfl, fun r h => ?_⟩
  have hr := interp_ok_eq op r h
  subst hr
  cases op <;> rfl

theorem claim_C7_witness :
    (callOp (Client.mk (fun _ => (0 : Nat)))
        (OpCall.list (β := Unit) none)).fst =
      Client.mk (fun _ => (0 : Nat)) ∧
    (Request.mk (β := Unit) .GET "/video/v1/live-streams"
        (.queryConfig none)).payload = specOpPayload (.list none) :=
  ⟨(claim_C7 (Client.mk (fun _ => (0 : Nat))) (.list none)).1,
    (claim_C7 (Client.mk (fun _ => (0 : Nat))) (.list none)).2 _ rfl⟩

/-- Claim C9: in every two-argument LiveStreams operation the live
stream identifier is validated before the second argument: when both
arguments are missing or empty, the rejection carries the message about
the missing live stream identifier. -/
theorem claim_C9 {β : Type} (lid x : Option String) (p : Option β)
    (ps : Option (SimulcastTargetParams β))
    (hlid : strTruthy lid = false) (hx : strTruthy x = false)
    (hp : p = none) (hps : ps = none) :
    interp (.createPlaybackId lid p) =
      .error "A live stream ID is required to create a live stream playback ID" ∧
    interp (β := β) (.deletePlaybackId lid x) =
      .error "A live stream ID is required to delete a live stream playback ID" ∧
    interp (β := β) (.playbackId lid x) =
      .error "A live stream ID is required" ∧
    interp (.createSimulcastTarget lid ps) =
      .error "A live stream ID is required to create a simulcast target" ∧
    interp (β := β) (.getSimulcastTarget lid x) =
      .error "A live stream ID is required to get a simulcast target" ∧
    interp (β := β) (.deleteSimulcastTarget lid x) =
      .error "A live stream ID is required to delete a simulcast target" := by
  subst hp hps
  simp [interp, createPlaybackId, deletePlaybackId, playbackId,
    createSimulcastTarget, getSimulcastTarget, deleteSimulcastTarget,
    hlid]

theorem claim_C9_witness :
    interp (β := Unit) (.createPlaybackId none none) =
      .error "A live stream ID is required to create a live stream playback ID" ∧
    interp (β := Unit) (.deletePlaybackId none none) =
      .error "A live stream ID is required to delete a live stream playback ID" ∧
    interp (β := Unit) (.playbackId none none) =
      .error "A live stream ID is required" ∧
    interp (β := Unit) (.createSimulcastTarget none none) =
      .error "A live stream ID is required to create a simulcast target" ∧
    interp (β := Unit) (.getSimulcastTarget none none) =
      .error "A live stream ID is required to get a simulcast target" ∧
    interp (β := Unit) (.deleteSimulcastTarget none none) =
      .error "A live stream ID is required to delete a simulcast target" :=
  claim_C9 none none none none rfl rfl rfl rfl

end LiveStreams

end MuxSDK
